import Mathlib

/-!
A shallow embedding of the binary-provisioning logic of the LSP-fleet
Sublime Text plugin (`src/sublime-package/plugin.py`) and proofs about it.

External effects (filesystem, network, subprocess) are modelled explicitly:
the filesystem state relevant to the installer is a small record, the
network and failure behaviour of each step is an oracle record, and every
network request made by an execution is recorded in an effect trace.
-/

namespace LSPFleet

/-- The `BINARY_NAME` constant from plugin.py. -/
def BINARY_NAME : String := "fleet-schema-gen"

/-- Python `s.lstrip("v")`: remove every leading `v` character. -/
def lstripV (s : String) : String := String.mk (s.data.dropWhile (fun c => c = 'v'))

/-- Python `s.strip()`: remove leading and trailing whitespace. -/
def pyStrip (s : String) : String :=
  String.mk
    (((s.data.dropWhile Char.isWhitespace).reverse.dropWhile
        Char.isWhitespace).reverse)

/-- Python `s.lower()`: lower-case every character. -/
def pyLower (s : String) : String := String.mk (s.data.map Char.toLower)

/-- Python `s.startswith(pre)`. -/
def pyStartsWith (s pre : String) : Bool := pre.data.isPrefixOf s.data

/-- Python `s.endswith(suf)`. -/
def pyEndsWith (s suf : String) : Bool := suf.data.isSuffixOf s.data

/-- Python `s.split()` with no argument: split on whitespace runs, dropping
empty tokens. -/
def pySplit (s : String) : List String :=
  ((s.data.splitOnP Char.isWhitespace).filter (fun t => t ≠ [])).map String.mk

/-- Model of `get_platform_suffix` (plugin.py lines 29-47): map the lowered OS name
and machine string to a platform tag, `none` for unsupported combinations. -/
def get_platform_suffix (system machine : String) : Option String :=
  let s := pyLower system
  let m := pyLower machine
  if s = "darwin" then
    if m = "arm64" ∨ m = "aarch64" then some "darwin-arm64"
    else if m = "x86_64" ∨ m = "amd64" then some "darwin-x64"
    else none
  else if s = "linux" then
    if m = "x86_64" ∨ m = "amd64" then some "linux-x64"
    else if m = "aarch64" ∨ m = "arm64" then some "linux-arm64"
    else none
  else if s = "windows" then some "windows-x64"
  else none

/-- One downloadable file attached to a release (JSON asset object). -/
structure Asset where
  name : String
  browser_download_url : String
deriving Repr, DecidableEq

/-- One release object from the GitHub release listing. -/
structure Release where
  tag_name : String
  assets : List Asset
deriving Repr, DecidableEq

/-- Does a release ship at least one asset whose name starts with the
binary's canonical name? (the inner loop of `get_latest_release_info`). -/
def hasBinaryAsset (r : Release) : Bool :=
  r.assets.any (fun a => pyStartsWith a.name BINARY_NAME)

/-- Core of `get_latest_release_info` (plugin.py lines 93-96): first release,
in received order, with a matching asset. -/
def find_release (releases : List Release) : Option Release :=
  releases.find? hasBinaryAsset

/-- Model of `get_latest_release_info` (plugin.py lines 80-101): `fetch = none` models
a transport/parse exception (caught, function returns `None`). -/
def get_latest_release_info (fetch : Option (List Release)) : Option Release :=
  match fetch with
  | none => none
  | some releases => find_release releases

/-- The filesystem state of the storage directory that `download_binary`
reads and writes: the binary file at `<storage>/fleet-schema-gen`, the
`version` marker file (content, or `none` when absent), and the downloaded
archive file. -/
structure FS where
  binaryExists : Bool
  marker : Option String
  archiveExists : Bool
deriving Repr, DecidableEq

/-- A network request made during an execution (both constructors are HTTP
GETs in plugin.py: the release-listing fetch and the archive download). -/
inductive Eff where
  | fetchListing : Eff
  | downloadArchive : String → Eff
deriving Repr, DecidableEq

/-- The environment oracle for one call to `download_binary`: the platform
tag, the listing-fetch outcome (`none` = transport/parse exception), the
member names of the downloaded archive, and whether each fallible step of
the try-block raises. -/
structure Env where
  platform_suffix : Option String
  fetch : Option (List Release)
  archiveMembers : List String
  downloadFails : Bool
  extractFails : Bool
  chmodFails : Bool
  unlinkFails : Bool
  markerWriteFails : Bool
deriving Repr, DecidableEq

/-- Outcome of one call to `download_binary`: the returned optional path,
the final storage-directory state, the network requests performed (in
order), and whether the except-branch of the try-block ran. -/
structure DlResult where
  result : Option String
  fs : FS
  net : List Eff
  raised : Bool
deriving Repr, DecidableEq

/-- The except-branch of `download_binary` (plugin.py lines 177-182): fall
back to the binary currently on disk, else `None`. -/
def fallback (binPath : String) (fs : FS) (net : List Eff) : DlResult :=
  { result := if fs.binaryExists then some binPath else none
    fs := fs
    net := net
    raised := true }

/-- The idempotence check of plugin.py lines 139-142: marker content,
stripped, equals the release version. -/
def markerMatches (marker : Option String) (version : String) : Bool :=
  match marker with
  | some m => pyStrip m = version
  | none => false

/-- The archive-member predicate of plugin.py line 160. -/
def memberMatches (n : String) : Bool :=
  n = BINARY_NAME ∨ pyEndsWith n ("/" ++ BINARY_NAME)

/-- The try-block of `download_binary` (plugin.py lines 146-182): download
the archive, extract the first matching member to the binary path, chmod it
(`stat` raises when the file does not exist), delete the archive, and write
the version marker last. Any step's exception goes to `fallback`. -/
def try_install (binPath version url : String) (env : Env) (fs0 : FS)
    (net : List Eff) : DlResult :=
  let net1 := net ++ [Eff.downloadArchive url]
  if env.downloadFails then fallback binPath fs0 net1
  else
    let fs1 : FS := { fs0 with archiveExists := true }
    if env.extractFails then fallback binPath fs1 net1
    else
      let fs2 : FS :=
        if (env.archiveMembers.find? memberMatches).isSome then
          { fs1 with binaryExists := true }
        else fs1
      if !fs2.binaryExists ∨ env.chmodFails then fallback binPath fs2 net1
      else if env.unlinkFails then fallback binPath fs2 net1
      else
        let fs3 : FS := { fs2 with archiveExists := false }
        if env.markerWriteFails then fallback binPath fs3 net1
        else
          { result := some binPath
            fs := { fs3 with marker := some version }
            net := net1
            raised := false }

/-- Model of `download_binary` (plugin.py lines 104-182). -/
def download_binary (storage : String) (env : Env) (fs : FS) : DlResult :=
  match env.platform_suffix with
  | none => { result := none, fs := fs, net := [], raised := false }
  | some suffix =>
    let binPath := storage ++ "/" ++ BINARY_NAME
    let net0 := [Eff.fetchListing]
    match get_latest_release_info env.fetch with
    | none =>
      if fs.binaryExists then
        { result := some binPath, fs := fs, net := net0, raised := false }
      else
        { result := none, fs := fs, net := net0, raised := false }
    | some release =>
      let version := lstripV release.tag_name
      let asset_name := BINARY_NAME ++ "-" ++ version ++ "-" ++ suffix ++ ".tar.gz"
      match release.assets.find? (fun a => a.name = asset_name) with
      | none => { result := none, fs := fs, net := net0, raised := false }
      | some asset =>
        if fs.binaryExists ∧ markerMatches fs.marker version then
          { result := some binPath, fs := fs, net := net0, raised := false }
        else
          try_install binPath version asset.browser_download_url env fs net0

/-- The environment consulted by the local-discovery strategies of
`get_binary_path`: the configured `binary_path` setting (`none` = unset),
the filesystem's regular-file predicate, the result of `shutil.which`, the
executable-permission predicate, and the home directory. -/
structure LocatorEnv where
  custom_path : Option String
  isFile : String → Bool
  which : Option String
  isExec : String → Bool
  home : String

/-- Model of `find_binary_in_common_paths` (plugin.py lines 63-77): the fixed
candidate list, each checked for existence and executable permission. -/
def common_paths (home : String) : List String :=
  [ home ++ "/.cargo/bin/" ++ BINARY_NAME
  , "/opt/homebrew/bin/" ++ BINARY_NAME
  , "/usr/local/bin/" ++ BINARY_NAME
  , "/usr/bin/" ++ BINARY_NAME ]

def find_binary_in_common_paths (lenv : LocatorEnv) : Option String :=
  (common_paths lenv.home).find? (fun p => lenv.isFile p ∧ lenv.isExec p)

/-- Model of `get_binary_path` (plugin.py lines 185-208): configured path (checked
for existence only, Python truthiness rules out the empty string), then
PATH lookup, then common locations, then download. -/
def get_binary_path (lenv : LocatorEnv) (storage : String) (env : Env)
    (fs : FS) : Option String :=
  let rest :=
    match lenv.which with
    | some p => some p
    | none =>
      match find_binary_in_common_paths lenv with
      | some p => some p
      | none => (download_binary storage env fs).result
  match lenv.custom_path with
  | some p => if p ≠ "" ∧ lenv.isFile p then some p else rest
  | none => rest

/-- Outcome of resolving and probing the binary for
`FleetLsp.server_version`: no binary resolved, the subprocess raised
(missing file, timeout, ...), or it ran with an exit code and stdout. -/
inductive ProbeOutcome where
  | noBinary : ProbeOutcome
  | exn : ProbeOutcome
  | ran : Int → String → ProbeOutcome
deriving Repr, DecidableEq

/-- Model of `FleetLsp.server_version` (plugin.py lines 222-238): on exit code 0
return `stdout.strip().split()[-1]`; the `[-1]` on an empty token list
raises IndexError, which the bare except turns into "unknown", as does
every other failure. -/
def server_version (probe : ProbeOutcome) : String :=
  match probe with
  | .noBinary => "unknown"
  | .exn => "unknown"
  | .ran returncode stdout =>
    if returncode = 0 then
      match (pySplit (pyStrip stdout)).getLast? with
      | some tok => tok
      | none => "unknown"
    else "unknown"

/-- Model of `FleetLsp.install_or_update` (plugin.py lines 245-250): raise
RuntimeError when `download_binary` returns a falsy value (`None` or the
empty string under Python truthiness). -/
def install_or_update (storage : String) (env : Env) (fs : FS) :
    Except String Unit :=
  match (download_binary storage env fs).result with
  | none => Except.error ("Failed to download " ++ BINARY_NAME ++ " binary")
  | some p =>
    if p = "" then Except.error ("Failed to download " ++ BINARY_NAME ++ " binary")
    else Except.ok ()

/-! ### Concrete fixtures used by witnesses and counterexamples -/

def sampleAsset : Asset :=
  { name := "fleet-schema-gen-1.0.0-linux-x64.tar.gz"
    browser_download_url := "https://example.com/a.tar.gz" }

def sampleRelease : Release :=
  { tag_name := "v1.0.0", assets := [sampleAsset] }

def noAssetRelease : Release :=
  { tag_name := "v2.0.0"
    assets := [{ name := "other.zip", browser_download_url := "https://example.com/o.zip" }] }

def baseEnv : Env :=
  { platform_suffix := some "linux-x64"
    fetch := some [sampleRelease]
    archiveMembers := ["bin/fleet-schema-gen"]
    downloadFails := false
    extractFails := false
    chmodFails := false
    unlinkFails := false
    markerWriteFails := false }

def installedFS : FS :=
  { binaryExists := true, marker := some "1.0.0", archiveExists := false }

def staleFS : FS :=
  { binaryExists := true, marker := some "0.9.0", archiveExists := false }

def emptyFS : FS :=
  { binaryExists := false, marker := none, archiveExists := false }

/-! ### Helper lemmas -/

/-- When the try-block of `download_binary` raises, the version marker file
keeps the content it had when the block was entered. -/
theorem try_install_raised_marker (b v u : String) (env : Env) (fs : FS)
    (net : List Eff) (h : (try_install b v u env fs net).raised = true) :
    (try_install b v u env fs net).fs.marker = fs.marker := by
  unfold try_install fallback at *
  split_ifs at * <;> simp_all <;> split_ifs at * <;> simp_all

/-- When the try-block of `download_binary` raises, the returned value is
the binary path when a binary file exists at the target path at that
moment, and nothing otherwise. -/
theorem try_install_raised_result (b v u : String) (env : Env) (fs : FS)
    (net : List Eff) (h : (try_install b v u env fs net).raised = true) :
    (try_install b v u env fs net).result =
      (if (try_install b v u env fs net).fs.binaryExists then some b
       else none) := by
  unfold try_install fallback at *
  split_ifs at * <;> simp_all <;> split_ifs at * <;> simp_all

/-- The try-block returns either nothing or the binary path. -/
theorem try_install_result_shape (b v u : String) (env : Env) (fs : FS)
    (net : List Eff) :
    (try_install b v u env fs net).result = none ∨
    (try_install b v u env fs net).result = some b := by
  unfold try_install fallback
  split_ifs <;> simp_all <;> split_ifs <;> simp_all

/-- The function `download_binary` returns either nothing or the storage-directory
binary path. -/
theorem download_binary_result_shape (storage : String) (env : Env)
    (fs : FS) :
    (download_binary storage env fs).result = none ∨
    (download_binary storage env fs).result =
      some (storage ++ "/" ++ BINARY_NAME) := by
  unfold download_binary
  split
  · simp
  · dsimp only
    split
    · split_ifs <;> simp
    · split
      · simp
      · split_ifs
        · simp
        · exact try_install_result_shape _ _ _ _ _ _

/-- The storage-directory binary path is never the empty string. -/
theorem binPath_ne_empty (storage : String) :
    storage ++ "/" ++ BINARY_NAME ≠ "" := by
  intro h
  have hlen : (storage ++ "/" ++ BINARY_NAME).length = 0 := by
    rw [h]; rfl
  rw [String.length_append, String.length_append] at hlen
  have hb : BINARY_NAME.length = 16 := by decide
  omega

/-- A raising run of `download_binary` is a raising run of its try-block. -/
theorem download_binary_raised_eq (storage : String) (env : Env) (fs : FS)
    (h : (download_binary storage env fs).raised = true) :
    ∃ v u, download_binary storage env fs =
        try_install (storage ++ "/" ++ BINARY_NAME) v u env fs
          [Eff.fetchListing] ∧
      (try_install (storage ++ "/" ++ BINARY_NAME) v u env fs
          [Eff.fetchListing]).raised = true := by
  unfold download_binary at h ⊢
  split at h
  · simp at h
  · try dsimp only at h ⊢
    split at h
    · split_ifs at h
    · try dsimp only at h ⊢
      split at h
      · simp at h
      · split_ifs at h with hcond
        rw [if_neg hcond]
        exact ⟨_, _, rfl, h⟩

/-! ### Claim theorems -/

/-- C2: whenever `download_binary` raises inside its try-block (download,
extraction, permission-setting, archive cleanup, marker write), the version
marker file still holds exactly the content it held before the call (in
particular it stays absent if it was absent), because the marker is the
last thing written. -/
theorem spec_C2_marker_written_last (storage : String) (env : Env) (fs : FS)
    (h : (download_binary storage env fs).raised = true) :
    (download_binary storage env fs).fs.marker = fs.marker := by
  obtain ⟨v, u, heq, hra⟩ := download_binary_raised_eq storage env fs h
  rw [heq]
  exact try_install_raised_marker _ _ _ _ _ _ hra

theorem spec_C2_witness :
    (download_binary "/storage" { baseEnv with downloadFails := true }
        staleFS).raised = true ∧
    (download_binary "/storage" { baseEnv with downloadFails := true }
        staleFS).fs.marker = staleFS.marker :=
  ⟨by decide,
   spec_C2_marker_written_last "/storage"
     { baseEnv with downloadFails := true } staleFS (by decide)⟩

/-- C6 (counterexample): with no previously installed binary, a successful
download and extraction followed by a failing archive cleanup makes
`download_binary` raise and nevertheless return the freshly extracted
binary's path — not nothing, as the claim requires for states with no
previous install. -/
theorem spec_C6_counterexample :
    emptyFS.binaryExists = false ∧
    (download_binary "/storage" { baseEnv with unlinkFails := true }
        emptyFS).raised = true ∧
    (download_binary "/storage" { baseEnv with unlinkFails := true }
        emptyFS).result = some ("/storage" ++ "/" ++ BINARY_NAME) := by
  refine ⟨rfl, by decide, by decide⟩

/-- C6 (amended): on any exception inside the try-block, the exception does
not propagate and the call returns the binary path exactly when a binary
file exists at the target path at that moment — whether left by a previous
install or freshly extracted during this very call — and nothing
otherwise. -/
theorem spec_C6_stale_fallback (storage : String) (env : Env) (fs : FS)
    (h : (download_binary storage env fs).raised = true) :
    (download_binary storage env fs).result =
      (if (download_binary storage env fs).fs.binaryExists
       then some (storage ++ "/" ++ BINARY_NAME) else none) := by
  obtain ⟨v, u, heq, hra⟩ := download_binary_raised_eq storage env fs h
  rw [heq]
  exact try_install_raised_result _ _ _ _ _ _ hra

theorem spec_C6_witness :
    (download_binary "/storage" { baseEnv with downloadFails := true }
        emptyFS).raised = true ∧
    (download_binary "/storage" { baseEnv with downloadFails := true }
        emptyFS).result =
      (if (download_binary "/storage" { baseEnv with downloadFails := true }
            emptyFS).fs.binaryExists
       then some ("/storage" ++ "/" ++ BINARY_NAME) else none) :=
  ⟨by decide,
   spec_C6_stale_fallback "/storage" { baseEnv with downloadFails := true }
     emptyFS (by decide)⟩

/-- C1 (counterexample): in a state where the binary exists and the marker
equals the latest release's version, `download_binary` still performs one
network request — the release-listing fetch needed to learn that version —
so the claimed "zero network requests" is false (the path is returned
unchanged, though). -/
theorem spec_C1_counterexample :
    installedFS.binaryExists = true ∧
    get_latest_release_info baseEnv.fetch = some sampleRelease ∧
    markerMatches installedFS.marker (lstripV sampleRelease.tag_name) = true ∧
    (download_binary "/storage" baseEnv installedFS).net =
      [Eff.fetchListing] ∧
    (download_binary "/storage" baseEnv installedFS).net ≠ [] := by
  refine ⟨rfl, by decide, by decide, by decide, by decide⟩

/-- C1 (amended): when the platform is supported and the fetched latest
release carries the expected asset, a state whose binary exists and whose
marker equals that release's version makes `download_binary` perform
exactly the one release-listing request and no archive download, return
the existing binary path, and leave the storage state unchanged. -/
theorem spec_C1_idempotent_install (storage : String) (env : Env) (fs : FS)
    (r : Release) (sfx : String) (a : Asset)
    (hp : env.platform_suffix = some sfx)
    (hr : get_latest_release_info env.fetch = some r)
    (ha : r.assets.find?
        (fun x => x.name =
          BINARY_NAME ++ "-" ++ lstripV r.tag_name ++ "-" ++ sfx ++
            ".tar.gz") = some a)
    (hb : fs.binaryExists = true)
    (hm : markerMatches fs.marker (lstripV r.tag_name) = true) :
    download_binary storage env fs =
      { result := some (storage ++ "/" ++ BINARY_NAME), fs := fs
        net := [Eff.fetchListing], raised := false } := by
  unfold download_binary
  rw [hp]
  try dsimp only
  rw [hr]
  try dsimp only
  rw [ha]
  try dsimp only
  rw [if_pos ⟨hb, hm⟩]

theorem spec_C1_witness :
    download_binary "/storage" baseEnv installedFS =
      { result := some ("/storage" ++ "/" ++ BINARY_NAME), fs := installedFS
        net := [Eff.fetchListing], raised := false } :=
  spec_C1_idempotent_install "/storage" baseEnv installedFS sampleRelease
    "linux-x64" sampleAsset rfl (by decide) (by decide) rfl (by decide)

/-- C3: when the downloaded archive contains no member named
`fleet-schema-gen` or ending in `/fleet-schema-gen` and a binary from a
previous install exists at the target path, `download_binary` still deletes
the archive, overwrites the version marker with the new release's version,
and returns the old binary's path as a successful (non-raising) install. -/
theorem spec_C3_empty_archive_success (storage : String) (env : Env)
    (fs : FS) (r : Release) (sfx : String) (a : Asset)
    (hp : env.platform_suffix = some sfx)
    (hr : get_latest_release_info env.fetch = some r)
    (ha : r.assets.find?
        (fun x => x.name =
          BINARY_NAME ++ "-" ++ lstripV r.tag_name ++ "-" ++ sfx ++
            ".tar.gz") = some a)
    (hnm : env.archiveMembers.find? memberMatches = none)
    (hb : fs.binaryExists = true)
    (hm : markerMatches fs.marker (lstripV r.tag_name) = false)
    (hd : env.downloadFails = false) (he : env.extractFails = false)
    (hc : env.chmodFails = false) (hu : env.unlinkFails = false)
    (hw : env.markerWriteFails = false) :
    download_binary storage env fs =
      { result := some (storage ++ "/" ++ BINARY_NAME)
        fs := { binaryExists := true, marker := some (lstripV r.tag_name)
                archiveExists := false }
        net := [Eff.fetchListing, Eff.downloadArchive a.browser_download_url]
        raised := false } := by
  unfold download_binary
  rw [hp]
  try dsimp only
  rw [hr]
  try dsimp only
  rw [ha]
  try dsimp only
  rw [if_neg (by simp [hm])]
  unfold try_install fallback
  simp [hd, he, hc, hu, hw, hnm, hb]

theorem spec_C3_witness :
    download_binary "/storage" { baseEnv with archiveMembers := ["README.md"] }
        staleFS =
      { result := some ("/storage" ++ "/" ++ BINARY_NAME)
        fs := { binaryExists := true, marker := some "1.0.0"
                archiveExists := false }
        net := [Eff.fetchListing,
                Eff.downloadArchive sampleAsset.browser_download_url]
        raised := false } :=
  spec_C3_empty_archive_success "/storage"
    { baseEnv with archiveMembers := ["README.md"] } staleFS sampleRelease
    "linux-x64" sampleAsset rfl (by decide) (by decide) (by decide) rfl
    (by decide) rfl rfl rfl rfl rfl

/-- C4: `install_or_update` raises (returns an error) exactly when
`download_binary` returns nothing; a successful download never raises. -/
theorem spec_C4_install_raises_iff (storage : String) (env : Env) (fs : FS) :
    (∃ msg, install_or_update storage env fs = Except.error msg) ↔
    (download_binary storage env fs).result = none := by
  unfold install_or_update
  rcases download_binary_result_shape storage env fs with h | h <;> rw [h]
  · simp
  · try dsimp only
    rw [if_neg (binPath_ne_empty storage)]
    simp

/-- The first release with a matching asset wins. -/
theorem find_release_first (before after : List Release) (r : Release)
    (hb : ∀ x ∈ before, hasBinaryAsset x = false)
    (hr : hasBinaryAsset r = true) :
    find_release (before ++ r :: after) = some r := by
  induction before with
  | nil => simp [find_release, List.find?, hr]
  | cons y ys ih =>
    have hy : hasBinaryAsset y = false := hb y (List.mem_cons_self _ _)
    have hys : ∀ x ∈ ys, hasBinaryAsset x = false :=
      fun x hx => hb x (List.mem_cons_of_mem _ hx)
    simpa [find_release, List.find?, hy] using ih hys

/-- C5: for every received releases list, `get_latest_release_info` returns
the first release, in received order, carrying at least one asset whose
name starts with `fleet-schema-gen`; it returns nothing when no release
has such an asset; in particular, for R1 (newest, no matching asset)
followed by R2 (older, matching asset) it returns R2. -/
theorem spec_C5_first_with_asset :
    (∀ (before after : List Release) (r : Release),
        (∀ x ∈ before, hasBinaryAsset x = false) → hasBinaryAsset r = true →
        get_latest_release_info (some (before ++ r :: after)) = some r) ∧
    (∀ releases : List Release,
        (∀ x ∈ releases, hasBinaryAsset x = false) →
        get_latest_release_info (some releases) = none) ∧
    (∀ R1 R2 : Release, hasBinaryAsset R1 = false → hasBinaryAsset R2 = true →
        get_latest_release_info (some [R1, R2]) = some R2) := by
  refine ⟨?_, ?_, ?_⟩
  · intro before after r hb hr
    exact find_release_first before after r hb hr
  · intro releases h
    simp [get_latest_release_info, find_release, List.find?_eq_none]
    intro x hx
    simp [h x hx]
  · intro R1 R2 h1 h2
    have h := find_release_first [R1] [] R2
      (by intro x hx; simp at hx; subst hx; exact h1) h2
    simpa [get_latest_release_info] using h

theorem spec_C5_witness :
    get_latest_release_info (some [noAssetRelease, sampleRelease]) =
      some sampleRelease :=
  spec_C5_first_with_asset.2.2 noAssetRelease sampleRelease (by decide)
    (by decide)

/-- C7: when the configured `binary_path` names an existing regular file,
`get_binary_path` returns it — regardless of what PATH lookup, the
well-known directories, or a download would yield, and without consulting
the executability predicate (the statement holds for every `isExec`). -/
theorem spec_C7_configured_path_priority (lenv : LocatorEnv)
    (storage : String) (env : Env) (fs : FS) (p : String)
    (hc : lenv.custom_path = some p) (hne : p ≠ "")
    (hf : lenv.isFile p = true) :
    get_binary_path lenv storage env fs = some p := by
  unfold get_binary_path
  rw [hc]
  simp [hne, hf]

def customLenv : LocatorEnv :=
  { custom_path := some "/opt/custom/fleet-schema-gen"
    isFile := fun s => decide (s = "/opt/custom/fleet-schema-gen")
    which := some "/usr/bin/fleet-schema-gen"
    isExec := fun _ => false
    home := "/home/user" }

theorem spec_C7_witness :
    get_binary_path customLenv "/storage" baseEnv emptyFS =
      some "/opt/custom/fleet-schema-gen" :=
  spec_C7_configured_path_priority customLenv "/storage" baseEnv emptyFS
    "/opt/custom/fleet-schema-gen" rfl (by decide) (by decide)

/-- C8: `get_platform_suffix` realises exactly the (OS, machine) mapping
table — each of the five tags is returned precisely for its listed
lowered OS/arch combinations, and every unlisted combination yields the
unsupported sentinel `none`. -/
theorem spec_C8_platform_table (system machine : String) :
    (get_platform_suffix system machine = some "darwin-arm64" ↔
      pyLower system = "darwin" ∧
        (pyLower machine = "arm64" ∨ pyLower machine = "aarch64")) ∧
    (get_platform_suffix system machine = some "darwin-x64" ↔
      pyLower system = "darwin" ∧
        (pyLower machine = "x86_64" ∨ pyLower machine = "amd64")) ∧
    (get_platform_suffix system machine = some "linux-x64" ↔
      pyLower system = "linux" ∧
        (pyLower machine = "x86_64" ∨ pyLower machine = "amd64")) ∧
    (get_platform_suffix system machine = some "linux-arm64" ↔
      pyLower system = "linux" ∧
        (pyLower machine = "aarch64" ∨ pyLower machine = "arm64")) ∧
    (get_platform_suffix system machine = some "windows-x64" ↔
      pyLower system = "windows") ∧
    (get_platform_suffix system machine = none ↔
      ¬(pyLower system = "darwin" ∧
          (pyLower machine = "arm64" ∨ pyLower machine = "aarch64" ∨
           pyLower machine = "x86_64" ∨ pyLower machine = "amd64")) ∧
      ¬(pyLower system = "linux" ∧
          (pyLower machine = "x86_64" ∨ pyLower machine = "amd64" ∨
           pyLower machine = "aarch64" ∨ pyLower machine = "arm64")) ∧
      pyLower system ≠ "windows") := by
  unfold get_platform_suffix
  dsimp only
  split_ifs <;> simp_all <;> (try rcases ‹_ ∨ _› with h | h) <;>
    try simp_all

/-- C9: `server_version` never propagates an error: it is total, returns
the last whitespace-delimited token of the probe's stdout when the exit
code is 0 and a token exists, and returns the sentinel "unknown" on every
failure — missing binary, raised exception (timeout), non-zero exit, or
empty output. -/
theorem spec_C9_version_probe (probe : ProbeOutcome) :
    (probe = ProbeOutcome.noBinary → server_version probe = "unknown") ∧
    (probe = ProbeOutcome.exn → server_version probe = "unknown") ∧
    (∀ rc stdout, probe = ProbeOutcome.ran rc stdout → rc ≠ 0 →
        server_version probe = "unknown") ∧
    (∀ stdout, probe = ProbeOutcome.ran 0 stdout →
        pySplit (pyStrip stdout) = [] → server_version probe = "unknown") ∧
    (∀ stdout toks t, probe = ProbeOutcome.ran 0 stdout →
        pySplit (pyStrip stdout) = toks ++ [t] → server_version probe = t) := by
  refine ⟨?_, ?_, ?_, ?_, ?_⟩
  · intro h; subst h; rfl
  · intro h; subst h; rfl
  · intro rc stdout h hrc; subst h; simp [server_version, hrc]
  · intro stdout h hsplit; subst h; simp [server_version, hsplit]
  · intro stdout toks t h hsplit
    subst h
    simp [server_version, hsplit, List.getLast?_concat]

theorem spec_C9_witness :
    server_version (ProbeOutcome.ran 0 "fleet-schema-gen 1.2.3") = "1.2.3" :=
  (spec_C9_version_probe _).2.2.2.2 "fleet-schema-gen 1.2.3"
    ["fleet-schema-gen"] "1.2.3" rfl (by decide)

/-- C10: on an unsupported platform `download_binary` returns nothing,
raises nothing and performs no network request — even when an installed
binary exists in the storage directory (the stale-fallback branch is
unreachable) — and `install_or_update` therefore raises. -/
theorem spec_C10_unsupported_platform (storage : String) (env : Env)
    (fs : FS) (h : env.platform_suffix = none) :
    download_binary storage env fs =
      { result := none, fs := fs, net := [], raised := false } ∧
    install_or_update storage env fs =
      Except.error ("Failed to download " ++ BINARY_NAME ++ " binary") := by
  have hd : download_binary storage env fs =
      { result := none, fs := fs, net := [], raised := false } := by
    unfold download_binary
    rw [h]
  refine ⟨hd, ?_⟩
  unfold install_or_update
  rw [hd]

theorem spec_C10_witness :
    download_binary "/storage" { baseEnv with platform_suffix := none }
        installedFS =
      { result := none, fs := installedFS, net := [], raised := false } ∧
    install_or_update "/storage" { baseEnv with platform_suffix := none }
        installedFS =
      Except.error ("Failed to download " ++ BINARY_NAME ++ " binary") :=
  spec_C10_unsupported_platform "/storage"
    { baseEnv with platform_suffix := none } installedFS rfl

end LSPFleet
